import Mathlib

/-!
Verification of the ADB Insight utility layer (`src/utils/adb_utils.py`,
`src/utils/app_utils.py`, `src/gui/wireless_dialog.py`).

The Python code is shallowly embedded: subprocess results are supplied as
explicit environment values, the object state (`self.device_cache`,
`self.app_cache`, ...) is threaded as an explicit state record, raised
exceptions are `Except.error` (or the `PyCall.exc` constructor when a
value-or-exception outcome is required), and the CPython string operations
used by the code (`str.strip`, `str.split`, `str.splitlines`, `in`,
`str.isdigit`, `str.title`, `str.lower`) are reimplemented on `List Char`
with Python's semantics.
-/

namespace AdbInsight

/-! ## Python string primitives -/

/-- Python whitespace, as used by `str.strip()` and `str.split()` without
arguments: space, tab, newline, carriage return, vertical tab, form feed. -/
def isPyWs (c : Char) : Bool :=
  c = ' ' || c = '\t' || c = '\n' || c = '\r' || c = '\x0b' || c = '\x0c'

/-- `str.strip()` on a character list. -/
def pyStripChars (l : List Char) : List Char :=
  ((l.dropWhile isPyWs).reverse.dropWhile isPyWs).reverse

/-- Python `s.strip()`. -/
def pyStrip (s : String) : String := String.mk (pyStripChars s.data)

/-- Accumulator-style tokenizer behind `pySplitWs` (Python `s.split()`):
splits on runs of whitespace, dropping empty tokens. -/
def pySplitAux (acc : List Char) : List Char → List (List Char)
  | [] => if acc.isEmpty then [] else [acc.reverse]
  | c :: cs =>
    if isPyWs c then
      if acc.isEmpty then pySplitAux [] cs else acc.reverse :: pySplitAux [] cs
    else pySplitAux (c :: acc) cs

/-- Python `s.split()` (no separator argument). -/
def pySplitWs (s : String) : List String := (pySplitAux [] s.data).map String.mk

/-- First maximal run of non-whitespace characters. -/
def wsTok (l : List Char) : List Char := l.takeWhile (fun c => !isPyWs c)

/-- Rest of the list after the first token and the following whitespace run. -/
def wsRest (l : List Char) : List Char :=
  (l.dropWhile (fun c => !isPyWs c)).dropWhile isPyWs

/-- Elements after the first token for `pySplit2` (Python
`s.split(None, 2)`): the second token, then the remainder after its
whitespace run (leading whitespace removed, trailing kept) when
non-empty. -/
def pySplit2Rest (l0 : List Char) : List String :=
  match wsRest l0 with
  | [] => []
  | r1@(_ :: _) =>
    match wsRest r1 with
    | [] => [String.mk (wsTok r1)]
    | r2@(_ :: _) => [String.mk (wsTok r1), String.mk r2]

/-- Python `s.split(None, 2)`: at most two splits on whitespace runs. -/
def pySplit2 (s : String) : List String :=
  match s.data.dropWhile isPyWs with
  | [] => []
  | l0@(_ :: _) => String.mk (wsTok l0) :: pySplit2Rest l0

/-- Accumulator behind `pySplitChar`. -/
def splitOnCharAux (sep : Char) (acc : List Char) : List Char → List (List Char)
  | [] => [acc.reverse]
  | c :: cs =>
    if c = sep then acc.reverse :: splitOnCharAux sep [] cs
    else splitOnCharAux sep (c :: acc) cs

/-- Python `s.split(sep)` for a single-character separator: keeps empty
pieces, yields `[""]` on the empty string. -/
def pySplitChar (sep : Char) (s : String) : List String :=
  (splitOnCharAux sep [] s.data).map String.mk

/-- Python `s.splitlines()` restricted to `\n` separators (the adb outputs
parsed by this code are `\n`-separated; each line is stripped before use, so
a `\r` remnant is discarded by the callers). The empty string has no lines. -/
def pySplitLines (s : String) : List String :=
  if s = "" then [] else pySplitChar '\n' s

/-- Python `needle in hay` substring test (scans every start position). -/
def containsSeg (needle : List Char) : List Char → Bool
  | [] => needle.isEmpty
  | c :: cs => needle.isPrefixOf (c :: cs) || containsSeg needle cs

/-- Python `needle in hay` on strings. -/
def strContains (hay needle : String) : Bool := containsSeg needle.data hay.data

/-- Python `s.startswith(pre)`. -/
def pyStartsWith (s pre : String) : Bool := pre.data.isPrefixOf s.data

/-- Python `s.isdigit()` (ASCII digits). -/
def pyIsDigit (s : String) : Bool := !s.data.isEmpty && s.data.all Char.isDigit

/-- Decimal value of a digit run, as produced by Python `int`. -/
def digitsToNat (l : List Char) : Nat := l.foldl (fun n c => n * 10 + (c.toNat - 48)) 0

/-- Python `s.lower()` (ASCII). -/
def pyLower (s : String) : String := String.mk (s.data.map Char.toLower)

/-- Walk behind `pyTitle`; the flag records whether the previous character
was alphabetic. -/
def pyTitleAux (prevAlpha : Bool) : List Char → List Char
  | [] => []
  | c :: cs =>
    if c.isAlpha then (if prevAlpha then c.toLower else c.toUpper) :: pyTitleAux true cs
    else c :: pyTitleAux false cs

/-- Python `s.title()` (ASCII letters). -/
def pyTitle (s : String) : String := String.mk (pyTitleAux false s.data)

/-! ## Device records and the `devices -l` parser
(`ADBUtils.get_connected_devices`) -/

/-- A parsed device entry. The Python code builds a dict
`{'id': ..., 'state': ...}` and then, for extended `devices -l` info, inserts
further `key:value` items into the same dict; `extra` holds those items,
while an item whose key is literally `id` or `state` overwrites the
corresponding field, exactly as the dict assignment would. -/
structure DeviceRec where
  id : String
  state : String
  extra : List (String × String)
  deriving Repr, DecidableEq

/-- Dict-style insert: replace the value of an existing key, else append. -/
def assocUpsert : List (String × String) → String → String → List (String × String)
  | [], k, v => [(k, v)]
  | (k0, v0) :: rest, k, v =>
    if k0 = k then (k0, v) :: rest else (k0, v0) :: assocUpsert rest k v

/-- `item.split(':', 1)[0]`: the part before the first colon. -/
def keyOf (t : String) : String := String.mk (t.data.takeWhile (fun c => c != ':'))

/-- `item.split(':', 1)[1]`: the part after the first colon. -/
def valOf (t : String) : String :=
  String.mk ((t.data.dropWhile (fun c => c != ':')).drop 1)

/-- One iteration of the extended-info loop in `get_connected_devices`:
`if ':' in item: key, value = item.split(':', 1); device_info[key] = value`. -/
def applyItem (d : DeviceRec) (item : String) : DeviceRec :=
  if item.data.contains ':' then
    let key := keyOf item
    let value := valOf item
    if key = "id" then { d with id := value }
    else if key = "state" then { d with state := value }
    else { d with extra := assocUpsert d.extra key value }
  else d

/-- One device line of `adb devices -l` output
(`line.strip()`; skip if empty; `parts = line.split(None, 2)`;
a record needs at least two parts; `key:value` items are folded in only when
there is a third part and the state is `device`). `none` means the line
produced no record. -/
def parseDeviceLine (raw : String) : Option DeviceRec :=
  if pyStrip raw = "" then none
  else
    match pySplit2 (pyStrip raw) with
    | [i, st] => some ⟨i, st, []⟩
    | [i, st, r] =>
      if st = "device" then some ((pySplitWs r).foldl applyItem ⟨i, st, []⟩)
      else some ⟨i, st, []⟩
    | _ => none

/-- `ADBUtils.get_connected_devices`, applied to the `(success, output)`
pair returned by `_run_adb(['devices', '-l'])`: on failure or a missing
`List of devices attached` header it returns `[]`, otherwise it parses every
line after the header. -/
def get_connected_devices (run : Bool × String) : List DeviceRec :=
  if !run.1 then []
  else
    match pySplitLines (pyStrip run.2) with
    | [] => []
    | hdr :: rest =>
      if pyStartsWith hdr "List of devices attached" then rest.filterMap parseDeviceLine
      else []

/-- The device states adb itself reports as a single token. -/
def knownStates : List String :=
  ["device", "offline", "unauthorized", "authorizing", "recovery", "sideload",
   "bootloader", "host"]

/-- The `key:value` keys adb prints in extended `devices -l` info. -/
def extKeys : List String := ["product", "model", "device", "transport_id", "usb"]

/-- A well-formed `devices -l` device line: an identifier token, a known
state token, and (optionally) extended info made of `key:value` items whose
keys are the ones adb actually prints. -/
def wellFormedDeviceLine (raw : String) : Bool :=
  match pySplit2 (pyStrip raw) with
  | [_, st] => knownStates.contains st
  | [_, st, r] =>
    knownStates.contains st &&
      (pySplitWs r).all (fun t => t.data.contains ':' && extKeys.contains (keyOf t))
  | _ => false

/-! ## Device-state classification and the TTL caches (`ADBUtils`) -/

/-- The readiness classification at the heart of
`ADBUtils.get_device_state`: no devices, more than one device, or exactly
one device that is or is not in the `device` state. -/
def deviceStateOf : List DeviceRec → Bool × String
  | [] => (false, "No devices connected")
  | [d] =>
    if d.state = "device" then (true, d.id)
    else (false, "Device " ++ d.id ++ " is " ++ d.state)
  | _ :: _ :: _ => (false, "Multiple devices connected")

/-- An installed-app record as assembled by `ADBUtils.get_installed_apps`. -/
structure AppEntry where
  name : String
  package : String
  path : String
  system : Bool
  sdk : Option Nat
  cpu_abi : Option String
  install_time : Option String
  deriving Repr, DecidableEq

/-- The mutable `ADBUtils` fields used by the cached queries. -/
structure ADBState where
  device_cache : Option (Bool × String)
  app_cache : Option (List AppEntry)
  last_device_check : Nat
  last_app_refresh : Nat
  cache_timeout : Nat
  deriving Repr, DecidableEq

/-- The environment seen through `ADBUtils._run_adb`: each argument vector
is answered with a `(success, output)` pair. `_run_adb` is deterministic in
the model because no call in the claims under study depends on invocation
order. -/
def AdbEnv : Type := List String → Bool × String

/-- Refresh path of `ADBUtils.get_device_state`: run `adb devices -l`,
classify, store the classification in `device_cache` and stamp
`last_device_check`. The final component counts `_run_adb` invocations. -/
def get_device_state_refresh (st : ADBState) (now : Nat) (env : AdbEnv) :
    (Bool × String) × ADBState × Nat :=
  let result := deviceStateOf (get_connected_devices (env ["devices", "-l"]))
  (result, { st with device_cache := some result, last_device_check := now }, 1)

/-- `ADBUtils.get_device_state`: within `cache_timeout` of the last check a
cached classification is returned untouched; otherwise the device list is
re-fetched. -/
def get_device_state (st : ADBState) (now : Nat) (env : AdbEnv) :
    (Bool × String) × ADBState × Nat :=
  if now - st.last_device_check < st.cache_timeout then
    match st.device_cache with
    | some cached => (cached, st, 0)
    | none => get_device_state_refresh st now env
  else get_device_state_refresh st now env

/-! ### The `pm list packages` regex and per-package detail lookups -/

/-- Scanner behind `pkgMatch`, mirroring the backtracking of
`re.match(r'package:(.+?)=(.+)$', line)` after the literal `package:`:
`acc` is the reversed prefix matched by `(.+?)` so far; the split is taken
at the first `=` whose left side is non-empty and newline-free and whose
right side is a non-empty newline-free run ending at the end of the string
(or just before one trailing newline). -/
def pkgScan (acc : List Char) : List Char → Option (List Char × List Char)
  | [] => none
  | c :: cs =>
    if c = '\n' then none
    else if c = '=' && !acc.isEmpty then
      let seg := cs.takeWhile (fun ch => ch != '\n')
      let tl := cs.drop seg.length
      if !seg.isEmpty && (tl.isEmpty || tl = ['\n']) then some (acc.reverse, seg)
      else pkgScan (c :: acc) cs
    else pkgScan (c :: acc) cs

/-- `re.match(r'package:(.+?)=(.+)$', s)` from `ADBUtils.get_installed_apps`:
the APK path (up to the first `=`) and the package name (the rest). -/
def pkgMatch (s : String) : Option (String × String) :=
  if pyStartsWith s "package:" then
    (pkgScan [] (s.data.drop 8)).map fun pq => (String.mk pq.1, String.mk pq.2)
  else none

/-- `re.search(r'<marker><digits>')`: first position where the marker is
followed by at least one digit; the digit run is captured. Used for
`targetSdk=(\d+)`. -/
def searchKeyDigits (marker : List Char) : List Char → Option Nat
  | [] => none
  | c :: cs =>
    if marker.isPrefixOf (c :: cs) then
      let ds := ((c :: cs).drop marker.length).takeWhile Char.isDigit
      if ds.isEmpty then searchKeyDigits marker cs else some (digitsToNat ds)
    else searchKeyDigits marker cs

/-- `re.search(r'<marker>(.+)$')` without `re.MULTILINE`: first occurrence
of the marker followed by a non-empty newline-free run that reaches the end
of the string (or the single trailing newline). Used for
`primaryCpuAbi=(.+)$` and `firstInstallTime=(.+)$`. -/
def searchKeyRest (marker : List Char) : List Char → Option String
  | [] => none
  | c :: cs =>
    if marker.isPrefixOf (c :: cs) then
      let after := (c :: cs).drop marker.length
      let seg := after.takeWhile (fun ch => ch != '\n')
      let tl := after.drop seg.length
      if !seg.isEmpty && (tl.isEmpty || tl = ['\n']) then some (String.mk seg)
      else searchKeyRest marker cs
    else searchKeyRest marker cs

/-- `re.search(r'label="([^"]+)"')`: first `label="` followed by a non-empty
quote-free run closed by `"`. -/
def searchLabel : List Char → Option String
  | [] => none
  | c :: cs =>
    if "label=\"".data.isPrefixOf (c :: cs) then
      let after := (c :: cs).drop 7
      let seg := after.takeWhile (fun ch => ch != '"')
      if !seg.isEmpty && (after.drop seg.length).head? = some '"' then
        some (String.mk seg)
      else searchLabel cs
    else searchLabel cs

/-- The `['shell', 'dumpsys', 'package', pkg, '|', 'grep', pat]` argument
vector used by the per-package detail lookups. -/
def detailArgs (package pat : String) : List String :=
  ["shell", "dumpsys", "package", package, "|", "grep", pat]

/-- The per-package body of `ADBUtils.get_installed_apps`: the base record
(name defaulting to the package, `system` from the path) refined by the four
`dumpsys package | grep` lookups (target SDK, CPU ABI, first install time,
application label); an unsuccessful lookup or a failed regex leaves the
field at its default. -/
def buildApp (env : AdbEnv) (path package : String) : AppEntry :=
  let base : AppEntry :=
    { name := package, package := package, path := path,
      system := strContains path "/system/", sdk := none, cpu_abi := none,
      install_time := none }
  let a1 :=
    match env (detailArgs package "targetSdk") with
    | (true, out) => { base with sdk := searchKeyDigits "targetSdk=".data out.data }
    | (false, _) => base
  let a2 :=
    match env (detailArgs package "primaryCpuAbi") with
    | (true, out) => { a1 with cpu_abi := searchKeyRest "primaryCpuAbi=".data out.data }
    | (false, _) => a1
  let a3 :=
    match env (detailArgs package "firstInstallTime") with
    | (true, out) =>
      { a2 with install_time := searchKeyRest "firstInstallTime=".data out.data }
    | (false, _) => a2
  match env (detailArgs package "android.app.Application") with
  | (true, out) =>
    match searchLabel out.data with
    | some label => { a3 with name := label }
    | none => a3
  | (false, _) => a3

/-- The line loop of `ADBUtils.get_installed_apps`: blank lines and lines
the regex rejects are skipped; a matched package always costs four
`_run_adb` detail calls (counted in the second component) and is then
dropped when it is a system app and system apps were not requested. -/
def adbAppsLoop (env : AdbEnv) (system_apps : Bool) :
    List String → List AppEntry × Nat
  | [] => ([], 0)
  | line :: rest =>
    let tailRes := adbAppsLoop env system_apps rest
    if pyStrip line = "" then tailRes
    else
      match pkgMatch (pyStrip line) with
      | none => tailRes
      | some (path, package) =>
        let app := buildApp env path package
        if !system_apps && app.system then (tailRes.1, tailRes.2 + 4)
        else (app :: tailRes.1, tailRes.2 + 4)

/-- `ADBUtils.get_installed_apps`: a fresh-enough `app_cache` entry is
returned as is (no subprocess call); otherwise the device is verified via
`get_device_state`, `pm list packages -f -3` is run, the lines are parsed,
and on success the cache and `last_app_refresh` are updated. The third
component counts `_run_adb` invocations performed by the call. -/
def get_installed_apps (st : ADBState) (now : Nat)
    (system_apps force_refresh : Bool) (env : AdbEnv) :
    List AppEntry × ADBState × Nat :=
  match
    (if !force_refresh && now - st.last_app_refresh < st.cache_timeout then
      st.app_cache
    else none) with
  | some cached => (cached, st, 0)
  | none =>
    let dres := get_device_state st now env
    if !dres.1.1 then ([], dres.2.1, dres.2.2)
    else
      match env ["shell", "pm", "list", "packages", "-f", "-3"] with
      | (false, _) => ([], dres.2.1, dres.2.2 + 1)
      | (true, output) =>
        let parsed := adbAppsLoop env system_apps (pySplitChar '\n' output)
        (parsed.1,
          { dres.2.1 with app_cache := some parsed.1, last_app_refresh := now },
          dres.2.2 + 1 + parsed.2)

/-! ## `AppUtils.get_installed_apps` (`src/utils/app_utils.py`) -/

/-- An app record as built by `AppUtils.get_installed_apps`. -/
structure AppRec where
  package : String
  name : String
  path : String
  system : Bool
  deriving Repr, DecidableEq

/-- The mutable `AppUtils` fields relevant to the claims:
`_app_cache` (initially the empty list) and `_last_app_refresh`. -/
structure AppUtilsState where
  app_cache : List AppRec
  last_app_refresh : Nat
  deriving Repr, DecidableEq

/-- The environment of one `AppUtils.get_installed_apps` call: the
`_verify_device()` outcome, the two `pm list packages` outputs (`none`
models an exception raised by `_run_adb_command`, which the method's outer
`except` turns into the cache fallback), and the `_get_app_name` helper as
an oracle (`none` when no label pattern matched; the helper swallows its own
exceptions and only its result reaches this method). -/
structure AppUtilsEnv where
  verify : Bool
  pm_user : Option String
  pm_system : Option String
  app_name : String → Option String

/-- `package.split('.')[-1]`. -/
def lastDotComponent (package : String) : String :=
  (pySplitChar '.' package).getLastD ""

/-- One line of the package loops in `AppUtils.get_installed_apps`: the
`package:` prefix is required, `line[8:]` is split on `=` and the line is
skipped unless that yields exactly two parts; the display name falls back to
`package.split('.')[-1].title()` when `_get_app_name` finds nothing. -/
def appUtilsParseLine (env : AppUtilsEnv) (systemFlag : Bool) (line : String) :
    Option AppRec :=
  if !pyStartsWith line "package:" then none
  else
    match pySplitChar '=' (String.mk (line.data.drop 8)) with
    | [p, q] =>
      let path := pyStrip p
      let package := pyStrip q
      let name :=
        match env.app_name package with
        | some n => n
        | none => pyTitle (lastDotComponent package)
      some { package := package, name := name, path := path, system := systemFlag }
    | _ => none

/-- The system-apps loop: parsed records are appended unless an already
collected record has the same package name. -/
def appUtilsSystemLoop (env : AppUtilsEnv) (apps : List AppRec) :
    List String → List AppRec
  | [] => apps
  | line :: rest =>
    match appUtilsParseLine env true line with
    | none => appUtilsSystemLoop env apps rest
    | some r =>
      if apps.any (fun a => a.package = r.package) then
        appUtilsSystemLoop env apps rest
      else appUtilsSystemLoop env (apps ++ [r]) rest

/-- `AppUtils.get_installed_apps`: a non-empty cache younger than 30 s is
returned as is (absent `force_refresh`); a failed device verification falls
back to the cache when it is non-empty and to `[]` otherwise; an exception
from `_run_adb_command` (a `none` output) reaches the outer handler, which
applies the same cache fallback; an empty package listing returns `[]`
without touching the cache; otherwise the parsed list is cached with the
current time and returned. -/
def appUtilsGetInstalledApps (st : AppUtilsState) (now : Nat)
    (force_refresh include_system : Bool) (env : AppUtilsEnv) :
    List AppRec × AppUtilsState :=
  if !force_refresh && !st.app_cache.isEmpty &&
      now - st.last_app_refresh < 30 then
    (st.app_cache, st)
  else if env.verify = false then
    (if !st.app_cache.isEmpty then st.app_cache else [], st)
  else
    match env.pm_user with
    | none => (if !st.app_cache.isEmpty then st.app_cache else [], st)
    | some output =>
      if output = "" then ([], st)
      else
        let apps := (pySplitLines output).filterMap (appUtilsParseLine env false)
        if include_system then
          match env.pm_system with
          | none => (if !st.app_cache.isEmpty then st.app_cache else [], st)
          | some out2 =>
            let apps2 :=
              if out2 = "" then apps
              else appUtilsSystemLoop env apps (pySplitLines out2)
            (apps2, { app_cache := apps2, last_app_refresh := now })
        else (apps, { app_cache := apps, last_app_refresh := now })

/-! ## The command runners and the retry decorator
(`ADBUtils._verify_adb_path`, `_run_adb`, `run_adb_command`) -/

/-- What one `subprocess.run` of the adb executable did: completed with an
exit code and captured streams, hit the timeout, or raised something else. -/
inductive ProcEvent where
  | completed (returncode : Int) (stdout stderr : String)
  | timedOut
  | raised (msg : String)
  deriving Repr, DecidableEq

/-- Outcome of calling a Python function: a returned value or a raised
exception carrying its message. -/
inductive PyCall (α : Type) where
  | val (a : α)
  | exc (msg : String)
  deriving Repr, DecidableEq

/-- `' '.join([self.adb_path] + args)`. -/
def cmdStr (adb_path : String) (args : List String) : String :=
  String.intercalate " " (adb_path :: args)

/-- The `try` body of `ADBUtils._run_adb` for one subprocess event: total —
a non-zero exit, a timeout and an unexpected exception are all converted
into a tagged `(False, message)` result, and success returns the stripped
stdout. -/
def run_adb_attempt (adb_path : String) (args : List String) (timeout : Nat)
    (ev : ProcEvent) : Bool × String :=
  match ev with
  | .completed rc out err =>
    if rc ≠ 0 then
      (false, "ADB command failed (code " ++ toString rc ++ "): " ++ pyStrip err)
    else (true, pyStrip out)
  | .timedOut =>
    (false,
      "ADB command timed out after " ++ toString timeout ++ "s: " ++
        cmdStr adb_path args)
  | .raised m => (false, "ADB command failed unexpectedly: " ++ m)

/-- The `retry` package's decorator semantics: the wrapped call is
re-invoked only when it raises; attempt `k` (1-based) is consumed per
recursion and the final attempt's outcome (value or exception) is
propagated. Returns the outcome and the number of attempts made. -/
def retryGo {α : Type} (f : Nat → PyCall α) : Nat → Nat → PyCall α × Nat
  | 0, k => (f k, k)
  | 1, k => (f k, k)
  | n + 2, k =>
    match f k with
    | .val a => (.val a, k)
    | .exc _ => retryGo f (n + 1) (k + 1)

/-- The sleep schedule `delay * backoff^i` between the attempts of
`retry(tries, delay, backoff)`. -/
def retryDelays (tries delay backoff : Nat) : List Nat :=
  (List.range (tries - 1)).map fun i => delay * backoff ^ i

/-- `ADBUtils._run_adb` as decorated with `@retry(tries=3, delay=1,
backoff=2)`: attempt `k` sees subprocess event `evs k`. Returns the overall
outcome and the number of attempts made. -/
def run_adb (adb_path : String) (args : List String) (timeout : Nat)
    (evs : Nat → ProcEvent) : PyCall (Bool × String) × Nat :=
  retryGo (fun k => PyCall.val (run_adb_attempt adb_path args timeout (evs k))) 3 1

/-- Whether an environment-variable candidate of `_verify_adb_path` is set
and points at an existing `platform-tools/adb`. -/
def envHit : Option (String × Bool) → Bool
  | some (_, true) => true
  | _ => false

/-- `ADBUtils._verify_adb_path`: keep `adb_path` when `shutil.which` finds
it; otherwise take the first of `ANDROID_HOME`, `ANDROID_SDK_ROOT` that is
set (`some`) and whose `platform-tools/adb` exists (`true`); otherwise raise
`FileNotFoundError` (`Except.error`). -/
def verify_adb_path (adb_path : String) (whichFound : Bool)
    (android_home android_sdk_root : Option (String × Bool)) :
    Except String String :=
  if whichFound then .ok adb_path
  else
    match android_home with
    | some (p, true) => .ok p
    | _ =>
      match android_sdk_root with
      | some (p, true) => .ok p
      | _ =>
        .error
          "ADB executable not found in PATH or Android SDK. Please ensure Android SDK Platform Tools are installed and the directory containing adb.exe is added to your PATH."

/-- `ADBUtils.run_adb_command`: raises `FileNotFoundError` when `adb_path`
is unset, raises `CalledProcessError` on a non-zero exit, logs and re-raises
`TimeoutExpired` on timeout and re-raises any other exception; only a
zero-exit run returns (the stripped stdout). -/
def run_adb_command (adb_path : Option String) (args : List String)
    (timeout : Nat) (ev : ProcEvent) : Except String String :=
  match adb_path with
  | none => .error "FileNotFoundError: ADB executable not found"
  | some p =>
    match ev with
    | .completed rc out _ =>
      if rc ≠ 0 then
        .error ("CalledProcessError: command " ++ cmdStr p args ++
          " returned non-zero exit status " ++ toString rc)
      else .ok (pyStrip out)
    | .timedOut =>
      .error ("TimeoutExpired: ADB command timed out after " ++
        toString timeout ++ "s: " ++ cmdStr p args)
    | .raised m => .error m

/-! ## Wireless pairing (`ADBUtils.pair_wireless_device`,
`WirelessDialog.complete_pairing`) -/

/-- `subprocess.run` outcome for the pair command: completion with exit
code and stdout, or a raised exception. -/
inductive Spawn where
  | completed (returncode : Int) (stdout : String)
  | raised (msg : String)
  deriving Repr, DecidableEq

/-- `ADBUtils.pair_wireless_device`: `False` without an adb path; on a
spawn, `returncode == 0 and 'Successfully paired' in stdout`; a raised
exception is caught and yields `False`. -/
def pair_wireless_device (adb_path_set : Bool) (res : Spawn) : Bool :=
  if !adb_path_set then false
  else
    match res with
    | .completed rc out => rc = 0 && strContains out "Successfully paired"
    | .raised _ => false

/-- Outcome of `WirelessDialog.complete_pairing` as a state transition. -/
inductive PairOutcome where
  | paired
  | pairingFailed
  | invalidCode
  deriving Repr, DecidableEq

/-- `WirelessDialog.complete_pairing`: reject a code that is not exactly
six digits; otherwise the transition is decided by
`pair_wireless_device(code)`. -/
def complete_pairing (code : String) (adb_path_set : Bool) (res : Spawn) :
    PairOutcome :=
  if code = "" || code.data.length ≠ 6 || !pyIsDigit code then .invalidCode
  else if pair_wireless_device adb_path_set res then .paired
  else .pairingFailed

/-! ## The `dumpsys meminfo` parser (the `total_pss` revision of
`ADBUtils.get_memory_info`) -/

/-- The `memory_info` dict of the parser, all values in the dump's own unit
(KB), initialised to zero. -/
structure MemInfoRec where
  total_pss : Nat
  java_heap : Nat
  native_heap : Nat
  code : Nat
  stack : Nat
  graphics : Nat
  private_other : Nat
  system : Nat
  deriving Repr, DecidableEq

/-- The zero-initialised `memory_info` dict. -/
def memInfoInit : MemInfoRec :=
  { total_pss := 0, java_heap := 0, native_heap := 0, code := 0, stack := 0,
    graphics := 0, private_other := 0, system := 0 }

/-- The `elif` chain mapping an App Summary key (lower-cased, substring
matched) to the dict field it updates. -/
def appSummaryKey (mem : MemInfoRec) (key : String) (value : Nat) : MemInfoRec :=
  if strContains key "java heap" then { mem with java_heap := value }
  else if strContains key "native heap" then { mem with native_heap := value }
  else if strContains key "code" then { mem with code := value }
  else if strContains key "stack" then { mem with stack := value }
  else if strContains key "graphics" then { mem with graphics := value }
  else if strContains key "private other" then { mem with private_other := value }
  else if strContains key "system" then { mem with system := value }
  else mem

/-- One line of the meminfo parse loop: an `App Summary` marker switches
into summary mode; in summary mode a `key: value` line (exactly one colon)
updates the mapped field with the digits of the value's first token; outside
summary mode a line containing `TOTAL PSS:` or `TOTAL:` sets `total_pss`
from its first all-digit token, unscaled. -/
def meminfoStep (acc : Bool × MemInfoRec) (raw : String) : Bool × MemInfoRec :=
  if strContains (pyStrip raw) "App Summary" then (true, acc.2)
  else if acc.1 then
    if (pyStrip raw).data.contains ':' then
      match pySplitChar ':' (pyStrip raw) with
      | [k, v] =>
        match (pySplitWs v).head? with
        | none => acc
        | some tok0 =>
          if (tok0.data.filter Char.isDigit).isEmpty then acc
          else
            (acc.1,
              appSummaryKey acc.2 (pyLower (pyStrip k))
                (digitsToNat (tok0.data.filter Char.isDigit)))
      | _ => acc
    else acc
  else if strContains (pyStrip raw) "TOTAL PSS:" ||
      strContains (pyStrip raw) "TOTAL:" then
    match (pySplitWs (pyStrip raw)).find? pyIsDigit with
    | some p => (acc.1, { acc.2 with total_pss := digitsToNat p.data })
    | none => acc
  else acc

/-- The parse loop of the `total_pss` revision of `get_memory_info` over the
lines of `result.stdout.split('\n')`. -/
def parse_meminfo_lines (lines : List String) : MemInfoRec :=
  (lines.foldl meminfoStep (false, memInfoInit)).2

/-- The same parser applied to the raw `dumpsys meminfo` stdout. -/
def get_memory_info_parse (stdout : String) : MemInfoRec :=
  parse_meminfo_lines (pySplitChar '\n' stdout)

/-- A dump line that neither enters the App Summary section nor carries a
total line, so the parse state passes over it unchanged. -/
def inertLine (x : String) : Prop :=
  strContains (pyStrip x) "App Summary" = false ∧
    strContains (pyStrip x) "TOTAL PSS:" = false ∧
    strContains (pyStrip x) "TOTAL:" = false

instance (x : String) : Decidable (inertLine x) := by
  unfold inertLine
  infer_instance

/-! ## Concrete environments and values used by the witness theorems -/

/-- A one-device, one-package environment: `devices -l` reports a ready
emulator, `pm list packages -f -3` reports one third-party package, and
every detail lookup fails. -/
def demoEnv : AdbEnv := fun args =>
  if args = ["devices", "-l"] then
    (true, "List of devices attached\nemulator-5554\tdevice")
  else if args = ["shell", "pm", "list", "packages", "-f", "-3"] then
    (true, "package:/data/app/x/base.apk=com.example.app")
  else (false, "")

/-- A pristine `ADBUtils` state (empty caches, `cache_timeout = 5`). -/
def demoSt0 : ADBState := ⟨none, none, 0, 0, 5⟩

/-- The single app `demoEnv` yields. -/
def demoApps : List AppEntry :=
  [{ name := "com.example.app", package := "com.example.app",
     path := "/data/app/x/base.apk", system := false, sdk := none,
     cpu_abi := none, install_time := none }]

/-- The state after a successful refresh against `demoEnv` at time 100. -/
def demoSt1 : ADBState := ⟨some (true, "emulator-5554"), some demoApps, 100, 100, 5⟩

/-- An `AppUtils` environment whose device verification fails. -/
def demoAppEnvOff : AppUtilsEnv := ⟨false, none, none, fun _ => none⟩

/-- A cached `AppUtils` app record. -/
def demoAppRec : AppRec := ⟨"com.example.app", "App", "/data/app/x/base.apk", false⟩

/-! ## Theorems -/

/-- C1: device-readiness classification of a parsed device list — empty
list: "No devices connected"; two or more devices: "Multiple devices
connected" (no device is picked); a single device in state `device`:
success with its identifier; a single device in any other state: a
not-ready result naming the device and its state. A cache-expired
`get_device_state` call returns exactly this classification of the parsed
`devices -l` output. -/
theorem c1_device_readiness_classification :
    (deviceStateOf [] = (false, "No devices connected")) ∧
    (∀ (d e : DeviceRec) (rest : List DeviceRec),
      deviceStateOf (d :: e :: rest) = (false, "Multiple devices connected")) ∧
    (∀ d : DeviceRec, d.state = "device" → deviceStateOf [d] = (true, d.id)) ∧
    (∀ d : DeviceRec, d.state ≠ "device" →
      deviceStateOf [d] = (false, "Device " ++ d.id ++ " is " ++ d.state)) ∧
    (∀ (st : ADBState) (now : Nat) (env : AdbEnv),
      st.cache_timeout ≤ now - st.last_device_check →
      (get_device_state st now env).1 =
        deviceStateOf (get_connected_devices (env ["devices", "-l"]))) := by
  refine ⟨rfl, fun d e rest => rfl, fun d h => by simp [deviceStateOf, h],
    fun d h => by simp [deviceStateOf, h], fun st now env h => ?_⟩
  simp [get_device_state, get_device_state_refresh, Nat.not_lt.mpr h]

/-- C1 witness: the classification at concrete device lists, and a
cache-expired `get_device_state` call on the demo environment. -/
theorem c1_device_readiness_classification_witness :
    deviceStateOf [⟨"emulator-5554", "device", []⟩, ⟨"R58M123", "device", []⟩] =
      (false, "Multiple devices connected") ∧
    deviceStateOf [⟨"emulator-5554", "device", []⟩] = (true, "emulator-5554") ∧
    deviceStateOf [⟨"R58M123", "unauthorized", []⟩] =
      (false, "Device R58M123 is unauthorized") ∧
    (get_device_state demoSt0 100 demoEnv).1 =
      deviceStateOf (get_connected_devices (demoEnv ["devices", "-l"])) :=
  ⟨c1_device_readiness_classification.2.1 _ _ _,
   c1_device_readiness_classification.2.2.1 _ rfl,
   c1_device_readiness_classification.2.2.2.1 _ (by decide),
   c1_device_readiness_classification.2.2.2.2 demoSt0 100 demoEnv (by decide)⟩

/-- C3 counterexample: `run_adb_command`, one of the cited command runners,
raises `CalledProcessError` for the expected failure of a non-zero exit
status instead of returning a tagged result. -/
theorem c3_counterexample_run_adb_command_raises :
    run_adb_command (some "adb") ["devices"] 30
        (.completed 1 "" "error: no devices/emulators found") =
      .error "CalledProcessError: command adb devices returned non-zero exit status 1" := by
  rfl

/-- C3 (amended): the retry-wrapped runner `_run_adb` never raises — every
subprocess event yields a tagged `(success, text)` value — and tags
non-zero exits and timeouts as failures; `_verify_adb_path` raises exactly
when no candidate locates the executable; but the secondary runner
`run_adb_command` does raise on a non-zero exit. -/
theorem c3_runner_failure_policy :
    (∀ (path : String) (args : List String) (t : Nat) (evs : Nat → ProcEvent),
      ∃ p, (run_adb path args t evs).1 = PyCall.val p) ∧
    (∀ (path : String) (args : List String) (t : Nat) (rc : Int) (out err : String),
      rc ≠ 0 → ∃ s, run_adb_attempt path args t (.completed rc out err) = (false, s)) ∧
    (∀ (path : String) (args : List String) (t : Nat),
      ∃ s, run_adb_attempt path args t .timedOut = (false, s)) ∧
    (∀ (path : String) (whichFound : Bool) (h r : Option (String × Bool)),
      (∃ e, verify_adb_path path whichFound h r = .error e) ↔
        (whichFound = false ∧ envHit h = false ∧ envHit r = false)) ∧
    (∀ (p : String) (args : List String) (t : Nat) (rc : Int) (out err : String),
      rc ≠ 0 → ∃ e, run_adb_command (some p) args t (.completed rc out err) = .error e) := by
  refine ⟨fun path args t evs => ⟨_, rfl⟩,
    fun path args t rc out err h =>
      ⟨"ADB command failed (code " ++ toString rc ++ "): " ++ pyStrip err,
        by simp [run_adb_attempt, h]⟩,
    fun path args t => ⟨_, rfl⟩,
    fun path whichFound h r => ?_,
    fun p args t rc out err h =>
      ⟨"CalledProcessError: command " ++ cmdStr p args ++
          " returned non-zero exit status " ++ toString rc,
        by simp [run_adb_command, h]⟩⟩
  cases whichFound <;>
    rcases h with _ | ⟨p1, b1⟩ <;> try cases b1
  all_goals
    rcases r with _ | ⟨p2, b2⟩ <;> try cases b2
  all_goals simp [verify_adb_path, envHit]

/-- C3 witness: the non-raising tagged failure of `_run_adb`, the raising
path-resolution failure, and the raising `run_adb_command`, each at a
concrete input. -/
theorem c3_runner_failure_policy_witness :
    (∃ s, run_adb_attempt "adb" ["devices"] 15 (.completed 1 "" "err") = (false, s)) ∧
    (∃ e, verify_adb_path "adb" false none none = .error e) ∧
    (∃ e, run_adb_command (some "adb") ["shell", "ls"] 30 (.completed 2 "" "") = .error e) :=
  ⟨c3_runner_failure_policy.2.1 "adb" ["devices"] 15 1 "" "err" (by decide),
   (c3_runner_failure_policy.2.2.2.1 "adb" false none none).mpr ⟨rfl, rfl, rfl⟩,
   c3_runner_failure_policy.2.2.2.2 "adb" ["shell", "ls"] 30 2 "" "" (by decide)⟩

/-- C4: TTL cache idempotence of `ADBUtils.get_installed_apps` — after a
first call that left the cache holding its own result, a second call
without `force_refresh` within `cache_timeout` of the recorded refresh
returns the identical cached list, leaves the state untouched and performs
zero `_run_adb` invocations. -/
theorem c4_ttl_cache_idempotent (env : AdbEnv) (st st₁ : ADBState)
    (now₁ now₂ : Nat) (sys force : Bool) (apps₁ : List AppEntry) (k : Nat)
    (_h₁ : get_installed_apps st now₁ sys force env = (apps₁, st₁, k))
    (h₂ : st₁.app_cache = some apps₁)
    (h₃ : now₂ - st₁.last_app_refresh < st₁.cache_timeout) :
    get_installed_apps st₁ now₂ sys false env = (apps₁, st₁, 0) := by
  simp [get_installed_apps, h₂, h₃]

/-- C4 witness: against the demo environment, a refresh at time 100
followed by a call at time 102 returns the cached list with no further
subprocess invocation. -/
theorem c4_ttl_cache_idempotent_witness :
    get_installed_apps demoSt1 102 false false demoEnv = (demoApps, demoSt1, 0) :=
  c4_ttl_cache_idempotent demoEnv demoSt0 demoSt1 100 102 false false demoApps 6
    (by decide) (by decide) (by decide)

/-- C7 counterexample: with every attempt failing (exit code 1), the
decorated `_run_adb` reports the tagged failure after exactly one attempt —
not after three — because its internal `except` blocks mean no exception
ever reaches the retry decorator. -/
theorem c7_counterexample_no_reattempt :
    run_adb "adb" ["devices"] 15 (fun _ => .completed 1 "" "error: device offline") =
      (PyCall.val (false, "ADB command failed (code 1): error: device offline"), 1) ∧
    (run_adb "adb" ["devices"] 15 (fun _ => .completed 1 "" "error: device offline")).2 ≠ 3 := by
  exact ⟨by rfl, by decide⟩

/-- C7 (amended): the revision decorates `_run_adb` with
`retry(tries=3, delay=1, backoff=2)`, whose schedule would be 1 s then 2 s
between raised attempts; but since `_run_adb` catches every exception and
returns a tagged failure, a failing adb invocation is never re-attempted:
the runner always reports the first attempt's tagged result after exactly
one attempt. -/
theorem c7_retry_wrapper_single_attempt :
    (∀ (path : String) (args : List String) (t : Nat) (evs : Nat → ProcEvent),
      run_adb path args t evs = (PyCall.val (run_adb_attempt path args t (evs 1)), 1)) ∧
    retryDelays 3 1 2 = [1, 2] :=
  ⟨fun _ _ _ _ => rfl, by decide⟩

/-- C8: completing wireless pairing succeeds exactly when the spawned pair
command exits 0 with `Successfully paired` in its stdout; any other
completion, a raised exception, or a missing adb path yields `False`; and
for a valid six-digit code the dialog's code-submitted transition goes to
`paired` precisely in that case. -/
theorem c8_pairing_success_iff_tool_success :
    (∀ res : Spawn,
      pair_wireless_device true res = true ↔
        ∃ rc out, res = .completed rc out ∧ rc = 0 ∧
          strContains out "Successfully paired" = true) ∧
    (∀ res : Spawn, pair_wireless_device false res = false) ∧
    (∀ (code : String) (res : Spawn), code.data.length = 6 → pyIsDigit code = true →
      (complete_pairing code true res = .paired ↔
        pair_wireless_device true res = true)) := by
  refine ⟨fun res => ?_, fun res => rfl, fun code res h6 hd => ?_⟩
  · cases res with
    | completed rc out =>
      simp only [pair_wireless_device, Bool.not_true, Bool.false_eq_true, if_false,
        Bool.and_eq_true, decide_eq_true_eq]
      constructor
      · rintro ⟨h0, hs⟩
        exact ⟨rc, out, rfl, h0, hs⟩
      · rintro ⟨rc1, out1, heq, h0, hs⟩
        cases heq
        exact ⟨h0, hs⟩
    | raised m =>
      simp only [pair_wireless_device]
      constructor
      · intro h
        simp at h
      · rintro ⟨rc1, out1, heq, h0, hs⟩
        cases heq
  · have hne : code ≠ "" := by
      intro h
      rw [h] at h6
      simp at h6
    by_cases hp : pair_wireless_device true res = true
    · simp [complete_pairing, hne, h6, hd, hp]
    · rw [Bool.not_eq_true] at hp
      simp [complete_pairing, hne, h6, hd, hp]

/-- C8 witness: a zero-exit run whose stdout reports success pairs, and a
valid code drives the dialog transition to `paired` on such a run. -/
theorem c8_pairing_success_iff_tool_success_witness :
    pair_wireless_device true (.completed 0 "Successfully paired to 192.168.1.44:37275") = true ∧
    complete_pairing "123456" true (.completed 0 "Successfully paired to device") = .paired :=
  ⟨(c8_pairing_success_iff_tool_success.1 _).mpr ⟨0, _, rfl, rfl, by decide⟩,
   (c8_pairing_success_iff_tool_success.2.2 "123456" _ (by decide) (by decide)).mpr
     ((c8_pairing_success_iff_tool_success.1 _).mpr ⟨0, _, rfl, rfl, by decide⟩)⟩

/-- C10: when device verification fails, `AppUtils.get_installed_apps`
returns the previously cached list unchanged (with the state untouched),
and returns the empty list only when the cache is itself empty. -/
theorem c10_stale_cache_fallback (st : AppUtilsState) (now : Nat)
    (force inc : Bool) (env : AppUtilsEnv) (hv : env.verify = false) :
    (st.app_cache ≠ [] →
      appUtilsGetInstalledApps st now force inc env = (st.app_cache, st)) ∧
    (st.app_cache = [] →
      appUtilsGetInstalledApps st now force inc env = ([], st)) := by
  constructor
  · intro h
    have hie : st.app_cache.isEmpty = false := by
      cases hc2 : st.app_cache with
      | nil => exact absurd hc2 h
      | cons a l => rfl
    simp [appUtilsGetInstalledApps, hv, hie]
  · intro h
    have hie : st.app_cache.isEmpty = true := by
      rw [h]
      rfl
    simp [appUtilsGetInstalledApps, hv, hie, h]

/-- C10 witness: with a failing verification, a populated cache is returned
unchanged and an empty cache yields the empty list. -/
theorem c10_stale_cache_fallback_witness :
    appUtilsGetInstalledApps ⟨[demoAppRec], 50⟩ 60 false false demoAppEnvOff =
      ([demoAppRec], ⟨[demoAppRec], 50⟩) ∧
    appUtilsGetInstalledApps ⟨[], 50⟩ 60 false false demoAppEnvOff = ([], ⟨[], 50⟩) :=
  ⟨(c10_stale_cache_fallback ⟨[demoAppRec], 50⟩ 60 false false demoAppEnvOff rfl).1
      (by decide),
   (c10_stale_cache_fallback ⟨[], 50⟩ 60 false false demoAppEnvOff rfl).2 rfl⟩

/-- The head of a `dropWhile` result falsifies the predicate. -/
theorem dropWhile_head_false {p : Char → Bool} :
    ∀ {l : List Char} {c : Char} {cs : List Char},
      l.dropWhile p = c :: cs → p c = false := by
  intro l
  induction l with
  | nil =>
    intro c cs h
    simp [List.dropWhile] at h
  | cons a as ih =>
    intro c cs h
    rw [List.dropWhile_cons] at h
    by_cases hp : p a = true
    · rw [if_pos hp] at h
      exact ih h
    · rw [if_neg hp] at h
      injection h with h1 _
      rw [Bool.not_eq_true] at hp
      rw [← h1]
      exact hp

/-- A string built from a non-empty character list is not the empty
string. -/
theorem mk_cons_ne_empty (c : Char) (l : List Char) : String.mk (c :: l) ≠ "" := by
  intro h
  have h2 : (String.mk (c :: l)).data = ("" : String).data := congrArg String.data h
  exact List.noConfusion h2

/-- The first element produced by `pySplit2` is a non-empty token. -/
theorem pySplit2_first_ne_empty {s a : String} {rest : List String}
    (h : pySplit2 s = a :: rest) : a ≠ "" := by
  unfold pySplit2 at h
  cases h0 : s.data.dropWhile isPyWs with
  | nil =>
    rw [h0] at h
    exact List.noConfusion h
  | cons c cs =>
    rw [h0] at h
    have h' : String.mk (wsTok (c :: cs)) :: pySplit2Rest (c :: cs) = a :: rest := h
    injection h' with hh _
    have hc : isPyWs c = false := dropWhile_head_false h0
    have htok : wsTok (c :: cs) = c :: cs.takeWhile (fun x => !isPyWs x) := by
      simp [wsTok, List.takeWhile_cons, hc]
    rw [← hh, htok]
    exact mk_cons_ne_empty _ _

/-- A `key:value` item whose key is one adb actually prints never touches
the `id` or `state` entries of a device record. -/
theorem applyItem_id_state (d : DeviceRec) (t : String)
    (h : extKeys.contains (keyOf t) = true) :
    (applyItem d t).id = d.id ∧ (applyItem d t).state = d.state := by
  have hmem : keyOf t = "product" ∨ keyOf t = "model" ∨ keyOf t = "device" ∨
      keyOf t = "transport_id" ∨ keyOf t = "usb" := by
    simpa [extKeys] using h
  have h1 : keyOf t ≠ "id" := by
    rcases hmem with h' | h' | h' | h' | h' <;> rw [h'] <;> decide
  have h2 : keyOf t ≠ "state" := by
    rcases hmem with h' | h' | h' | h' | h' <;> rw [h'] <;> decide
  simp only [applyItem]
  by_cases hc : t.data.contains ':' = true
  · rw [if_pos hc, if_neg h1, if_neg h2]
    exact ⟨rfl, rfl⟩
  · rw [if_neg hc]
    exact ⟨rfl, rfl⟩

/-- Folding adb's extended-info items over a device record preserves its
`id` and `state` fields. -/
theorem foldl_applyItem_id_state (items : List String)
    (h : ∀ t ∈ items, extKeys.contains (keyOf t) = true) :
    ∀ d : DeviceRec, (items.foldl applyItem d).id = d.id ∧
      (items.foldl applyItem d).state = d.state := by
  induction items with
  | nil => exact fun d => ⟨rfl, rfl⟩
  | cons t ts ih =>
    intro d
    have ht := h t (List.mem_cons_self t ts)
    have hts : ∀ x ∈ ts, extKeys.contains (keyOf x) = true :=
      fun x hx => h x (List.mem_cons_of_mem _ hx)
    rw [List.foldl_cons]
    have hrec := ih hts (applyItem d t)
    have hone := applyItem_id_state d t ht
    exact ⟨hrec.1.trans hone.1, hrec.2.trans hone.2⟩

/-- A well-formed device line parses to exactly one record whose identifier
is non-empty and whose state is a known adb state. -/
theorem parseDeviceLine_wf {raw : String} (h : wellFormedDeviceLine raw = true) :
    ∃ d, parseDeviceLine raw = some d ∧ d.id ≠ "" ∧
      knownStates.contains d.state = true := by
  unfold wellFormedDeviceLine at h
  unfold parseDeviceLine
  have hne : pyStrip raw ≠ "" := by
    intro h0
    rw [h0] at h
    simp [pySplit2] at h
  rw [if_neg hne]
  cases hsp : pySplit2 (pyStrip raw) with
  | nil =>
    rw [hsp] at h
    simp at h
  | cons a rest =>
    cases rest with
    | nil =>
      rw [hsp] at h
      simp at h
    | cons b rest2 =>
      cases rest2 with
      | nil =>
        rw [hsp] at h
        have h2 : knownStates.contains b = true := h
        exact ⟨⟨a, b, []⟩, rfl, pySplit2_first_ne_empty hsp, h2⟩
      | cons c rest3 =>
        cases rest3 with
        | nil =>
          rw [hsp] at h
          have h2 : (knownStates.contains b &&
              (pySplitWs c).all
                (fun t => t.data.contains ':' && extKeys.contains (keyOf t))) = true := h
          rw [Bool.and_eq_true] at h2
          by_cases hb : b = "device"
          · subst hb
            have hall : ∀ t ∈ pySplitWs c, extKeys.contains (keyOf t) = true := by
              have h3 := h2.2
              rw [List.all_eq_true] at h3
              intro t ht
              have h4 := h3 t ht
              rw [Bool.and_eq_true] at h4
              exact h4.2
            obtain ⟨hid, hst⟩ :=
              foldl_applyItem_id_state (pySplitWs c) hall ⟨a, "device", []⟩
            refine ⟨(pySplitWs c).foldl applyItem ⟨a, "device", []⟩, rfl, ?_, ?_⟩
            · rw [hid]
              exact pySplit2_first_ne_empty hsp
            · rw [hst]
              exact h2.1
          · refine ⟨⟨a, b, []⟩, ?_, pySplit2_first_ne_empty hsp, h2.1⟩
            show (if b = "device" then
                some ((pySplitWs c).foldl applyItem ⟨a, b, []⟩)
              else some ⟨a, b, []⟩) = some ⟨a, b, []⟩
            rw [if_neg hb]
        | cons d rest4 =>
          rw [hsp] at h
          simp at h

/-- Over a list of well-formed device lines, `filterMap parseDeviceLine`
keeps every line and every record satisfies the identifier/state
invariants. -/
theorem filterMap_parseDeviceLine {ls : List String}
    (h : ∀ l ∈ ls, wellFormedDeviceLine l = true) :
    (ls.filterMap parseDeviceLine).length = ls.length ∧
      ∀ d ∈ ls.filterMap parseDeviceLine, d.id ≠ "" ∧
        knownStates.contains d.state = true := by
  induction ls with
  | nil => exact ⟨rfl, fun d hd => absurd hd (List.not_mem_nil d)⟩
  | cons l ls ih =>
    obtain ⟨d0, hd0, hid0, hst0⟩ := parseDeviceLine_wf (h l (List.mem_cons_self l ls))
    obtain ⟨hlen, hmem⟩ := ih fun x hx => h x (List.mem_cons_of_mem _ hx)
    rw [List.filterMap_cons, hd0]
    refine ⟨by simpa using hlen, fun d hd => ?_⟩
    rcases List.mem_cons.mp hd with hd | hd
    · rw [hd]
      exact ⟨hid0, hst0⟩
    · exact hmem d hd

/-- C2: on well-formed `devices -l` output — a header starting with
`List of devices attached` followed by device lines each made of an
identifier token, a known state token and optional adb `key:value`
extended info — `get_connected_devices` returns exactly one record per
device line, and every record carries a non-empty identifier and a known
state string. -/
theorem c2_device_list_records (out hdr : String) (ls : List String)
    (h1 : pySplitLines (pyStrip out) = hdr :: ls)
    (h2 : pyStartsWith hdr "List of devices attached" = true)
    (h3 : ∀ l ∈ ls, wellFormedDeviceLine l = true) :
    (get_connected_devices (true, out)).length = ls.length ∧
      ∀ d ∈ get_connected_devices (true, out),
        d.id ≠ "" ∧ d.state ∈ knownStates := by
  have hg : get_connected_devices (true, out) = ls.filterMap parseDeviceLine := by
    unfold get_connected_devices
    rw [h1]
    simp [h2]
  obtain ⟨hlen, hmem⟩ := filterMap_parseDeviceLine h3
  rw [hg]
  refine ⟨hlen, fun d hd => ?_⟩
  obtain ⟨hid, hst⟩ := hmem d hd
  refine ⟨hid, ?_⟩
  have : knownStates.elem d.state = true := hst
  exact List.elem_iff.mp this

/-- C2 witness: a two-device listing, one with extended info, parses to two
records with the stated invariants. -/
theorem c2_device_list_records_witness :
    (get_connected_devices
        (true,
          "List of devices attached\nemulator-5554\tdevice product:sdk_gphone model:Pixel_6 device:generic transport_id:1\n192.168.1.7:5555  offline")).length =
      2 ∧
    ∀ d ∈ get_connected_devices
        (true,
          "List of devices attached\nemulator-5554\tdevice product:sdk_gphone model:Pixel_6 device:generic transport_id:1\n192.168.1.7:5555  offline"),
      d.id ≠ "" ∧ d.state ∈ knownStates :=
  c2_device_list_records _ "List of devices attached"
    ["emulator-5554\tdevice product:sdk_gphone model:Pixel_6 device:generic transport_id:1",
     "192.168.1.7:5555  offline"]
    (by decide) (by decide) (by decide)

/-- Membership is preserved from a `dropWhile` result to its source. -/
theorem mem_of_mem_dropWhile {α : Type} {p : α → Bool} {a : α} :
    ∀ {l : List α}, a ∈ l.dropWhile p → a ∈ l := by
  intro l
  induction l with
  | nil => exact fun h => h
  | cons b bs ih =>
    intro h
    rw [List.dropWhile_cons] at h
    by_cases hp : p b = true
    · rw [if_pos hp] at h
      exact List.mem_cons_of_mem _ (ih h)
    · rw [if_neg hp] at h
      exact h

/-- `str.strip()` only removes characters, so membership transfers back
to the original string. -/
theorem mem_of_mem_pyStripChars {a : Char} {l : List Char}
    (h : a ∈ pyStripChars l) : a ∈ l := by
  unfold pyStripChars at h
  rw [List.mem_reverse] at h
  have h2 := mem_of_mem_dropWhile h
  rw [List.mem_reverse] at h2
  exact mem_of_mem_dropWhile h2

/-- Splitting on a character that does not occur yields the single piece
`acc.reverse ++ l`. -/
theorem splitOnCharAux_no_sep {sep : Char} :
    ∀ {l acc : List Char}, sep ∉ l → splitOnCharAux sep acc l = [acc.reverse ++ l] := by
  intro l
  induction l with
  | nil =>
    intro acc _
    simp [splitOnCharAux]
  | cons c cs ih =>
    intro acc h
    have hc : ¬c = sep := fun he => h (he ▸ List.mem_cons_self c cs)
    have hcs : sep ∉ cs := fun hm => h (List.mem_cons_of_mem _ hm)
    simp only [splitOnCharAux, if_neg hc]
    rw [ih hcs]
    simp

/-- A line without `=` is skipped by the `AppUtils` package-line parser. -/
theorem appUtilsParseLine_no_eq (env : AppUtilsEnv) (flag : Bool) {m : String}
    (h : '=' ∉ m.data) : appUtilsParseLine env flag m = none := by
  unfold appUtilsParseLine
  by_cases hs : pyStartsWith m "package:" = true
  · have hd : '=' ∉ m.data.drop 8 := fun hm => h (List.mem_of_mem_drop hm)
    have hsp : pySplitChar '=' (String.mk (m.data.drop 8)) =
        [String.mk (m.data.drop 8)] := by
      show (splitOnCharAux '=' [] (m.data.drop 8)).map String.mk = _
      rw [splitOnCharAux_no_sep hd]
      simp
    simp only [hs, Bool.not_true, Bool.false_eq_true, if_false]
    rw [hsp]
  · rw [Bool.not_eq_true] at hs
    simp [hs]

/-- `=`-free character lists make `pkgScan` fail. -/
theorem pkgScan_no_eq : ∀ {l acc : List Char}, '=' ∉ l → pkgScan acc l = none := by
  intro l
  induction l with
  | nil => exact fun _ => rfl
  | cons c cs ih =>
    intro acc h
    have hc : ¬c = '=' := fun he => h (he ▸ List.mem_cons_self c cs)
    have hcs : '=' ∉ cs := fun hm => h (List.mem_cons_of_mem _ hm)
    by_cases hn : c = '\n'
    · simp only [pkgScan, if_pos hn]
    · simp only [pkgScan, if_neg hn]
      rw [if_neg ?_]
      · exact ih hcs
      · simp [hc]

/-- A line without `=` is rejected by the `package:(.+?)=(.+)$` regex. -/
theorem pkgMatch_no_eq {m : String} (h : '=' ∉ m.data) : pkgMatch m = none := by
  unfold pkgMatch
  by_cases hs : pyStartsWith m "package:" = true
  · rw [if_pos hs]
    have hd : '=' ∉ m.data.drop 8 := fun hm => h (List.mem_of_mem_drop hm)
    rw [pkgScan_no_eq hd]
    rfl
  · rw [if_neg hs]

/-- Stripping never introduces an `=`. -/
theorem pyStrip_no_eq {m : String} (h : '=' ∉ m.data) : '=' ∉ (pyStrip m).data :=
  fun hm => h (mem_of_mem_pyStripChars hm)

/-- A line the regex rejects contributes nothing to the
`ADBUtils.get_installed_apps` loop; the remaining lines parse exactly as
without it. -/
theorem adbAppsLoop_skip (env : AdbEnv) (sys : Bool) {m : String}
    (hm : pkgMatch (pyStrip m) = none) :
    ∀ (l1 l2 : List String),
      adbAppsLoop env sys (l1 ++ m :: l2) = adbAppsLoop env sys (l1 ++ l2) := by
  intro l1
  induction l1 with
  | nil =>
    intro l2
    rw [List.nil_append, List.nil_append]
    by_cases he : pyStrip m = ""
    · simp [adbAppsLoop, he]
    · simp only [adbAppsLoop, if_neg he, hm]
  | cons x xs ih =>
    intro l2
    rw [List.cons_append, List.cons_append]
    simp only [adbAppsLoop]
    rw [ih l2]

/-- C5: package-list parsing. The line
`package:/data/app/x/base.apk=com.example.app` yields the path
`/data/app/x/base.apk` and the package `com.example.app` in both cited
parsers (the `ADBUtils` regex and the `AppUtils` `split('=')` loop), and a
line missing the `=` separator is skipped by both loops while the remaining
lines parse unchanged — never fatally. -/
theorem c5_package_line_parsing :
    pkgMatch "package:/data/app/x/base.apk=com.example.app" =
      some ("/data/app/x/base.apk", "com.example.app") ∧
    (∀ env : AppUtilsEnv, ∃ r,
      appUtilsParseLine env false "package:/data/app/x/base.apk=com.example.app" =
          some r ∧
        r.path = "/data/app/x/base.apk" ∧ r.package = "com.example.app") ∧
    (∀ (env : AppUtilsEnv) (flag : Bool) (l1 l2 : List String) (m : String),
      '=' ∉ m.data →
        (l1 ++ m :: l2).filterMap (appUtilsParseLine env flag) =
          (l1 ++ l2).filterMap (appUtilsParseLine env flag)) ∧
    (∀ (env : AdbEnv) (sys : Bool) (l1 l2 : List String) (m : String),
      '=' ∉ m.data →
        adbAppsLoop env sys (l1 ++ m :: l2) = adbAppsLoop env sys (l1 ++ l2)) := by
  refine ⟨by decide, fun env => ⟨_, rfl, rfl, rfl⟩,
    fun env flag l1 l2 m h => ?_, fun env sys l1 l2 m h => ?_⟩
  · rw [List.filterMap_append, List.filterMap_append, List.filterMap_cons,
      appUtilsParseLine_no_eq env flag h]
  · exact adbAppsLoop_skip env sys (pkgMatch_no_eq (pyStrip_no_eq h)) l1 l2

/-- C5 witness: a malformed middle line is dropped and the two good lines
still parse, in both loops. -/
theorem c5_package_line_parsing_witness :
    (["package:/data/app/x/base.apk=com.example.app", "garbage line",
        "package:/data/app/y/base.apk=org.other.app"].filterMap
        (appUtilsParseLine demoAppEnvOff false) =
      (["package:/data/app/x/base.apk=com.example.app",
        "package:/data/app/y/base.apk=org.other.app"].filterMap
        (appUtilsParseLine demoAppEnvOff false))) ∧
    adbAppsLoop demoEnv false
        ["package:/data/app/x/base.apk=com.example.app", "garbage line"] =
      adbAppsLoop demoEnv false ["package:/data/app/x/base.apk=com.example.app"] :=
  ⟨c5_package_line_parsing.2.2.1 demoAppEnvOff false
      ["package:/data/app/x/base.apk=com.example.app"]
      ["package:/data/app/y/base.apk=org.other.app"] "garbage line" (by decide),
   c5_package_line_parsing.2.2.2 demoEnv false
      ["package:/data/app/x/base.apk=com.example.app"] [] "garbage line" (by decide)⟩

/-- An inert dump line leaves the parse state of the meminfo loop
unchanged while outside the App Summary section. -/
theorem meminfoStep_inert {mem : MemInfoRec} {raw : String} (h : inertLine raw) :
    meminfoStep (false, mem) raw = (false, mem) := by
  obtain ⟨h1, h2, h3⟩ := h
  simp [meminfoStep, h1, h2, h3]

/-- Folding the meminfo loop over inert lines preserves the state. -/
theorem meminfo_foldl_inert {mem : MemInfoRec} :
    ∀ {lines : List String}, (∀ x ∈ lines, inertLine x) →
      lines.foldl meminfoStep (false, mem) = (false, mem) := by
  intro lines
  induction lines with
  | nil => exact fun _ => rfl
  | cons l ls ih =>
    intro h
    rw [List.foldl_cons, meminfoStep_inert (h l (List.mem_cons_self l ls))]
    exact ih fun x hx => h x (List.mem_cons_of_mem _ hx)

/-- A `TOTAL PSS:` line outside the App Summary section stores its first
all-digit token into `total_pss`, unscaled. -/
theorem meminfoStep_total {mem : MemInfoRec} {raw tok : String}
    (hA : strContains (pyStrip raw) "App Summary" = false)
    (hT : strContains (pyStrip raw) "TOTAL PSS:" = true)
    (hF : (pySplitWs (pyStrip raw)).find? pyIsDigit = some tok) :
    meminfoStep (false, mem) raw =
      (false, { mem with total_pss := digitsToNat tok.data }) := by
  simp [meminfoStep, hA, hT, hF]

/-- C6: the meminfo parser of the `total_pss` revision, run over a dump
whose other lines are inert and whose `TOTAL PSS:` line has `12345` as its
first all-digit token, reports `total_pss = 12345` in the dump's own unit
(no rescaling). -/
theorem c6_total_pss_extraction (pre post : List String) (l : String)
    (hpre : ∀ x ∈ pre, inertLine x) (hpost : ∀ x ∈ post, inertLine x)
    (hA : strContains (pyStrip l) "App Summary" = false)
    (hT : strContains (pyStrip l) "TOTAL PSS:" = true)
    (hF : (pySplitWs (pyStrip l)).find? pyIsDigit = some "12345") :
    (parse_meminfo_lines (pre ++ l :: post)).total_pss = 12345 := by
  unfold parse_meminfo_lines
  rw [List.foldl_append, meminfo_foldl_inert hpre, List.foldl_cons,
    meminfoStep_total hA hT hF, meminfo_foldl_inert hpost]
  decide

/-- C6 witness: a concrete `dumpsys meminfo` dump whose total line reads
`TOTAL PSS:    12345` parses to `total_pss = 12345`. -/
theorem c6_total_pss_extraction_witness :
    (parse_meminfo_lines
        ["Applications Memory Usage (in Kilobytes):",
         "Uptime: 123456 Realtime: 654321", "",
         " TOTAL PSS:    12345",
         " TOTAL SWAP PSS:      99"]).total_pss = 12345 :=
  c6_total_pss_extraction
    ["Applications Memory Usage (in Kilobytes):",
     "Uptime: 123456 Realtime: 654321", ""]
    [" TOTAL SWAP PSS:      99"] " TOTAL PSS:    12345"
    (by decide) (by decide) (by decide) (by decide) (by decide)

end AdbInsight
